import Mathlib

/-!
Verification of the vote-session state machine of the pokemon-battle-royale
repository.

The embedding follows the source files:
 * `src/src/context/BattleContext.js` — the reducer `battleReducer` over the
   session state, and the mock WebSocket feed `createMockWebSocket`;
 * `src/src/utils/constants.js` — `ACTIONS` and `initialState`;
 * `src/src/services/pokemonAPI.js` (second document in the file: the
   BattleArena component) — `handleVote` and `getWinnerInfo`;
 * `src/unnamed/part_003` — the BattleArena variant with cross-tab
   duplicate-vote detection (`checkExistingVote`, `handleStorageChange`,
   battle-id derivation in `loadPokemon`).

Vote counts are embedded as `Nat` (the spec declares them integers ≥ 0 and
every code path only adds positive increments).  Pokémon records are embedded
by the only field the session logic reads, their `name`.
-/

namespace PokemonBattle

/-- model of a fetched Pokémon record; of the fields returned by
`fetchPokemon` only `name` is read by the session logic (`getWinnerInfo`). -/
structure Pokemon where
  name : String
deriving DecidableEq, Repr

/-- the two sides a vote can go to: the strings `'pokemon1'` / `'pokemon2'`
used throughout the source. -/
inductive Choice where
  | pokemon1
  | pokemon2
deriving DecidableEq, Repr

/-- a vote-count pair, the shape of `state.votes` and of the `SET_VOTES`
payload: `{ pokemon1: <n>, pokemon2: <n> }`. -/
structure Votes where
  pokemon1 : Nat
  pokemon2 : Nat
deriving DecidableEq, Repr

/-- the session state held by the store, following `initialState` in
`src/src/utils/constants.js`. -/
structure BattleState where
  pokemon1 : Option Pokemon
  pokemon2 : Option Pokemon
  loading : Bool
  error : Option String
  votes : Votes
  userVoted : Option Choice
  connectionStatus : String
  totalVotes : Nat
  votingLocked : Bool
  bannerDismissed : Bool
  battleId : Option String
deriving DecidableEq, Repr

/-- the actions dispatched to `battleReducer`, one constructor per tag of
`ACTIONS` in `src/src/utils/constants.js`, plus `other` for an action whose
`type` string is none of the defined ones.  `SET_BATTLE_ID` is declared in
`ACTIONS` but has no case in the reducer's switch. -/
inductive BAction where
  | setPokemon (pokemon1 pokemon2 : Pokemon)
  | setLoading (payload : Bool)
  | setError (payload : Option String)
  | setVotes (payload : Votes)
  | setUserVoted (payload : Option Choice)
  | setConnectionStatus (payload : String)
  | lockVoting
  | unlockVoting
  | setBannerDismissed (payload : Bool)
  | resetBattle
  | setBattleId (payload : Option String)
  | other (tag : String)
deriving DecidableEq, Repr

/-- the `type` string carried by an action, as compared by the reducer's
`switch (action.type)`. -/
def BAction.actionType : BAction → String
  | .setPokemon _ _ => "SET_POKEMON"
  | .setLoading _ => "SET_LOADING"
  | .setError _ => "SET_ERROR"
  | .setVotes _ => "SET_VOTES"
  | .setUserVoted _ => "SET_USER_VOTED"
  | .setConnectionStatus _ => "SET_CONNECTION_STATUS"
  | .lockVoting => "LOCK_VOTING"
  | .unlockVoting => "UNLOCK_VOTING"
  | .setBannerDismissed _ => "SET_BANNER_DISMISSED"
  | .resetBattle => "RESET_BATTLE"
  | .setBattleId _ => "SET_BATTLE_ID"
  | .other tag => tag

/-- the `type` strings that have a case in `battleReducer`'s switch
(`SET_BATTLE_ID` does not — it falls through to `default`). -/
def handledActionTypes : List String :=
  ["SET_POKEMON", "SET_LOADING", "SET_ERROR", "SET_VOTES", "SET_USER_VOTED",
   "SET_CONNECTION_STATUS", "LOCK_VOTING", "UNLOCK_VOTING",
   "SET_BANNER_DISMISSED", "RESET_BATTLE"]

/-- `initialState` from `src/src/utils/constants.js`. -/
def initialState : BattleState :=
  { pokemon1 := none
    pokemon2 := none
    loading := true
    error := none
    votes := { pokemon1 := 0, pokemon2 := 0 }
    userVoted := none
    connectionStatus := "disconnected"
    totalVotes := 0
    votingLocked := false
    bannerDismissed := false
    battleId := none }

/-- `battleReducer` from `src/src/context/BattleContext.js` lines 8-69.
`SET_VOTES` is a no-op when `votingLocked`; otherwise it replaces `votes` and
recomputes `totalVotes` as `payload.pokemon1 + payload.pokemon2`.
`SET_USER_VOTED` overwrites `userVoted` unconditionally.  `RESET_BATTLE`
rebuilds from `initialState`, keeping only `connectionStatus`.  The `default`
case returns the state unchanged. -/
def battleReducer (state : BattleState) (action : BAction) : BattleState :=
  match action with
  | .setPokemon p1 p2 =>
      { state with pokemon1 := some p1, pokemon2 := some p2,
                   loading := false, error := none }
  | .setLoading b => { state with loading := b }
  | .setError e => { state with error := e, loading := false }
  | .setVotes payload =>
      if state.votingLocked then state
      else
        { state with votes := payload,
                     totalVotes := payload.pokemon1 + payload.pokemon2 }
  | .setUserVoted c => { state with userVoted := c }
  | .setConnectionStatus s => { state with connectionStatus := s }
  | .lockVoting => { state with votingLocked := true }
  | .unlockVoting => { state with votingLocked := false }
  | .setBannerDismissed b => { state with bannerDismissed := b }
  | .resetBattle =>
      { initialState with loading := true,
                          connectionStatus := state.connectionStatus,
                          votingLocked := false,
                          bannerDismissed := false,
                          totalVotes := 0 }
  | .setBattleId _ => state
  | .other _ => state

/-- applying a list of `SET_VOTES` payloads in dispatch order. -/
def applySetVotes (s : BattleState) (ps : List Votes) : BattleState :=
  ps.foldl (fun st p => battleReducer st (.setVotes p)) s

/-- applying a list of actions in dispatch order. -/
def applyActions (s : BattleState) (as : List BAction) : BattleState :=
  as.foldl battleReducer s

/-- states reachable from `initialState` by dispatching actions. -/
inductive Reachable : BattleState → Prop where
  | init : Reachable initialState
  | step {s : BattleState} (a : BAction) : Reachable s → Reachable (battleReducer s a)

/-- the derived-total invariant of the spec:
`totalVotes = votes.pokemon1 + votes.pokemon2`. -/
def totalInv (s : BattleState) : Prop :=
  s.totalVotes = s.votes.pokemon1 + s.votes.pokemon2

lemma totalInv_initial : totalInv initialState := rfl

lemma totalInv_preserved (s : BattleState) (a : BAction) (h : totalInv s) :
    totalInv (battleReducer s a) := by
  cases a <;> simp_all [totalInv, battleReducer, initialState]
  split <;> simp_all [totalInv]

lemma totalInv_reachable {s : BattleState} (h : Reachable s) : totalInv s := by
  induction h with
  | init => exact totalInv_initial
  | step a _ ih => exact totalInv_preserved _ a ih

lemma locked_setVotes (s : BattleState) (h : s.votingLocked = true) (p : Votes) :
    battleReducer s (.setVotes p) = s := by
  simp [battleReducer, h]

lemma locked_applySetVotes (s : BattleState) (h : s.votingLocked = true)
    (ps : List Votes) : applySetVotes s ps = s := by
  induction ps with
  | nil => rfl
  | cons p ps ih =>
      simp only [applySetVotes, List.foldl_cons] at *
      rw [locked_setVotes s h p, ih]

lemma lock_sets_locked (s : BattleState) :
    (battleReducer s .lockVoting).votingLocked = true := rfl

/-! ## The mock WebSocket feed (`createMockWebSocket`, BattleContext.js 77-201)

The feed owns mutable timers and a lock latch.  Timers are modelled with
identifiers drawn from a counter `nextTimerId`, so that a timer scheduled
before an operation can be told apart from one scheduled after it. -/

/-- the mutable state closed over by `createMockWebSocket`:
`isLocked`, `autoVoteInterval`, `userVoteTimeout`, `currentVotes`, plus a
fresh-identifier counter for the timers it schedules. -/
structure FeedState where
  isLocked : Bool
  autoVoteInterval : Option Nat
  userVoteTimeout : Option Nat
  currentVotes : Votes
  nextTimerId : Nat
deriving DecidableEq, Repr

/-- the feed state right after `createMockWebSocket` runs its initializers. -/
def initialFeedState : FeedState :=
  { isLocked := false
    autoVoteInterval := none
    userVoteTimeout := none
    currentVotes := { pokemon1 := 0, pokemon2 := 0 }
    nextTimerId := 0 }

/-- adding the user's single vote to the current counts
(`currentVotes.pokemon1 += 1` / `currentVotes.pokemon2 += 1`). -/
def addChoice (v : Votes) : Choice → Votes
  | .pokemon1 => { v with pokemon1 := v.pokemon1 + 1 }
  | .pokemon2 => { v with pokemon2 := v.pokemon2 + 1 }

/-- `startAutoVoting` (BattleContext.js 87-125): clears any existing
auto-vote interval, resets the latch and the counts, dispatches
`SET_VOTES {0,0}`, and schedules a fresh interval.  It does not touch
`userVoteTimeout`. -/
def startAutoVoting (fs : FeedState) : FeedState × List BAction :=
  ({ isLocked := false
     autoVoteInterval := some fs.nextTimerId
     userVoteTimeout := fs.userVoteTimeout
     currentVotes := { pokemon1 := 0, pokemon2 := 0 }
     nextTimerId := fs.nextTimerId + 1 },
   [.setVotes { pokemon1 := 0, pokemon2 := 0 }])

/-- the synchronous part of `send` (BattleContext.js 128-135): clears any
pending user-vote lock timeout, then schedules the 500 ms vote-processing
callback (modelled as the `processVote` timer callback). -/
def sendSync (fs : FeedState) : FeedState :=
  { fs with userVoteTimeout := none }

/-- `close` (BattleContext.js 178-197): cancels both timers, resets the
latch and the counts. -/
def closeFeed (fs : FeedState) : FeedState :=
  { fs with isLocked := false
            autoVoteInterval := none
            userVoteTimeout := none
            currentVotes := { pokemon1 := 0, pokemon2 := 0 } }

/-- the feed's timer callbacks:
 * `tick a b` — the auto-vote interval callback (BattleContext.js 107-124),
   with the two random increments `Math.floor(Math.random()*10)+1` injected
   as parameters;
 * `processVote c` — the 500 ms vote-processing callback inside `send`
   (BattleContext.js 137-175) for a message of type `'vote'`;
 * `lockFire` — the 5000 ms lock-timeout callback (BattleContext.js
   154-170). -/
inductive FeedCb where
  | tick (a b : Nat)
  | processVote (c : Choice)
  | lockFire
deriving DecidableEq, Repr

/-- one timer callback run against the feed state, returning the new state
and the actions it dispatches to the store, in dispatch order.
 * `tick`: checks the `isLocked` latch first; when locked it only
   self-cancels the interval and dispatches nothing, otherwise it adds the
   increments and dispatches `SET_VOTES`.
 * `processVote`: guarded by `!isLocked`; adds the user's vote, dispatches
   `SET_VOTES`, and schedules the lock timeout.
 * `lockFire`: sets the latch, cancels the auto-vote interval, and only then
   dispatches `LOCK_VOTING`; it also nulls out the fired timeout. -/
def feedStep (fs : FeedState) : FeedCb → FeedState × List BAction
  | .tick a b =>
      if fs.isLocked then
        ({ fs with autoVoteInterval := none }, [])
      else
        let v : Votes := { pokemon1 := fs.currentVotes.pokemon1 + a,
                           pokemon2 := fs.currentVotes.pokemon2 + b }
        ({ fs with currentVotes := v }, [.setVotes v])
  | .processVote c =>
      if fs.isLocked then (fs, [])
      else
        let v := addChoice fs.currentVotes c
        ({ fs with currentVotes := v,
                   userVoteTimeout := some fs.nextTimerId,
                   nextTimerId := fs.nextTimerId + 1 },
         [.setVotes v])
  | .lockFire =>
      ({ fs with isLocked := true,
                 autoVoteInterval := none,
                 userVoteTimeout := none },
       [.lockVoting])

/-- running a sequence of timer callbacks, concatenating the dispatched
actions in order. -/
def feedRun (fs : FeedState) : List FeedCb → FeedState × List BAction
  | [] => (fs, [])
  | cb :: rest =>
      let s1 := feedStep fs cb
      let s2 := feedRun s1.1 rest
      (s2.1, s1.2 ++ s2.2)

/-- whether a dispatched-action trace contains a `SET_VOTES`. -/
def hasSetVotes : List BAction → Bool
  | [] => false
  | .setVotes _ :: _ => true
  | _ :: rest => hasSetVotes rest

/-- a trace is lock-clean when no `SET_VOTES` occurs anywhere after a
`LOCK_VOTING`. -/
def lockClean : List BAction → Bool
  | [] => true
  | .lockVoting :: rest => !hasSetVotes rest
  | _ :: rest => lockClean rest

/-! ## Timing constants of the vote-to-lock choreography

From `createMockWebSocket.send` (BattleContext.js): the vote-processing
delay is 500 ms and the lock timeout scheduled inside it is 5000 ms.  From
`handleVote` (second document of pokemonAPI.js, lines 195-227 of the file):
the countdown banner starts 600 ms after the vote and decrements once per
1000 ms from 5; the lock attempt runs when the count reaches 0. -/

/-- the 500 ms `setTimeout` wrapping vote processing in `send`. -/
def sendProcessingDelayMs : Nat := 500

/-- the 5000 ms lock timeout scheduled by vote processing. -/
def lockTimeoutMs : Nat := 5000

/-- the 600 ms delay before the countdown banner starts in `handleVote`. -/
def countdownStartDelayMs : Nat := 600

/-- the countdown interval period (1000 ms). -/
def countdownTickMs : Nat := 1000

/-- the number of countdown ticks until the count reaches 0 (starts at 5). -/
def countdownTicks : Nat := 5

/-- elapsed time from the user's vote to the feed's own `LOCK_VOTING`
dispatch. -/
def feedLockDelayMs : Nat := sendProcessingDelayMs + lockTimeoutMs

/-- elapsed time from the user's vote to the countdown-driven lock attempt
(`ws.lockVoting()` when the count reaches 0). -/
def countdownLockDelayMs : Nat :=
  countdownStartDelayMs + countdownTicks * countdownTickMs

/-- the method names of the object returned by `createMockWebSocket`
(BattleContext.js 85-200): it exposes no `lockVoting`. -/
def mockWebSocketMethods : List String :=
  ["startAutoVoting", "send", "close", "readyState"]

/-! ## The controller's `handleVote` (pokemonAPI.js second document, 189-245)

`handleVote` runs synchronously: it returns early when `userVoted` is set or
the feed is unavailable; otherwise it dispatches `SET_USER_VOTED(choice)`,
schedules the 600 ms countdown timer, and calls `ws.send`.  When `send`
throws, the catch block dispatches `SET_USER_VOTED(null)` and sets the
countdown banner flag to false — it cancels no timer. -/

/-- what one `handleVote` call did by the time it returns: the actions it
dispatched in order, whether the countdown timer was scheduled, whether it
was cancelled again before returning, and the final value of the
`showCountdown` flag. -/
structure HandleVoteResult where
  dispatched : List BAction
  countdownScheduled : Bool
  countdownCancelled : Bool
  showCountdown : Bool
deriving DecidableEq, Repr

/-- `handleVote(pokemonChoice)`, with the transport outcome of `ws.send`
injected as `sendFails`. -/
def handleVote (userVoted : Option Choice) (wsAvailable : Bool)
    (sendFails : Bool) (choice : Choice) (showCountdown : Bool) :
    HandleVoteResult :=
  if userVoted.isSome || !wsAvailable then
    { dispatched := []
      countdownScheduled := false
      countdownCancelled := false
      showCountdown := showCountdown }
  else if sendFails then
    { dispatched := [.setUserVoted (some choice), .setUserVoted none]
      countdownScheduled := true
      countdownCancelled := false
      showCountdown := false }
  else
    { dispatched := [.setUserVoted (some choice)]
      countdownScheduled := true
      countdownCancelled := false
      showCountdown := showCountdown }

/-! ## Winner computation (`getWinnerInfo`, pokemonAPI.js second document,
lines 266-283) -/

/-- the `winner` field of `getWinnerInfo`'s result. -/
inductive WinnerTag where
  | pokemon1
  | pokemon2
  | tie
deriving DecidableEq, Repr

/-- the result record of `getWinnerInfo` (the `pokemon` field carries the
same record the `name` is read from). -/
structure WinnerInfo where
  winner : WinnerTag
  name : String
deriving DecidableEq, Repr

/-- `winnerPokemon?.name || 'Unknown'`: a missing record, or a falsy (empty)
name, yields `'Unknown'`. -/
def pokemonNameOrUnknown : Option Pokemon → String
  | none => "Unknown"
  | some p => if p.name = "" then "Unknown" else p.name

/-- `getWinnerInfo` reads `totalVotes`, `votes`, `pokemon1`, `pokemon2` from
the state: `null` when `totalVotes === 0`; a `tie` when the counts are
equal; otherwise the side with strictly more votes. -/
def getWinnerInfo (s : BattleState) : Option WinnerInfo :=
  if s.totalVotes = 0 then none
  else if s.votes.pokemon1 = s.votes.pokemon2 then
    some { winner := .tie, name := "Tie" }
  else if s.votes.pokemon1 > s.votes.pokemon2 then
    some { winner := .pokemon1, name := pokemonNameOrUnknown s.pokemon1 }
  else
    some { winner := .pokemon2, name := pokemonNameOrUnknown s.pokemon2 }

/-! ## Cross-tab duplicate-vote detection (`src/unnamed/part_003`) -/

/-- the fields of the stored vote record that the detection logic reads
(`storeVoteData` also writes `timestamp`, the entity names and a `tabId`,
none of which are read back). -/
structure VoteRecord where
  choice : Choice
  battleId : String
deriving DecidableEq, Repr

/-- whether `needle` starts the list `hay` (character-wise). -/
def charsStartWith : List Char → List Char → Bool
  | [], _ => true
  | _ :: _, [] => false
  | a :: as, b :: bs => a == b && charsStartWith as bs

/-- whether `needle` occurs contiguously inside `hay`. -/
def charsContain (needle : List Char) : List Char → Bool
  | [] => needle.isEmpty
  | b :: bs => charsStartWith needle (b :: bs) || charsContain needle bs

/-- JavaScript `hay.includes(needle)` on strings. -/
def strIncludes (hay needle : String) : Bool :=
  charsContain needle.data hay.data

/-- the hardcoded battle key both ids are tested against. -/
def fixedBattleKey : String := "bulbasaur_vs_pikachu"

/-- the battle id derived in `loadPokemon` (part_003 line 129):
`` `${p1}_vs_${p2}` ``. -/
def deriveBattleId (p1 p2 : String) : String := p1 ++ "_vs_" ++ p2

/-- `checkExistingVote` (part_003 lines 48-65) run on session load: adopts
the stored choice (dispatching `SET_USER_VOTED` and showing the warning)
exactly when a record is stored, both the stored `battleId` and the current
one contain `'bulbasaur_vs_pikachu'`, and this tab has not voted.  Returns
the adopted choice, or `none` when nothing is adopted. -/
def checkExistingVote (stored : Option VoteRecord) (currentBattleId : String)
    (thisTabVoted : Bool) : Option Choice :=
  match stored with
  | none => none
  | some r =>
      if strIncludes r.battleId fixedBattleKey
          && strIncludes currentBattleId fixedBattleKey
          && !thisTabVoted then
        some r.choice
      else none

/-- `handleStorageChange` (part_003 lines 70-81) run on a storage event from
another tab: requires the well-known key, a new value, this tab not having
voted, the same two substring tests, and no recorded `userVoted`. -/
def handleStorageChange (key : String) (newValue : Option VoteRecord)
    (thisTabVoted : Bool) (currentBattleId : String)
    (userVoted : Option Choice) : Option Choice :=
  if key == "pokemon_battle_vote" && !thisTabVoted then
    match newValue with
    | none => none
    | some r =>
        if strIncludes r.battleId fixedBattleKey
            && strIncludes currentBattleId fixedBattleKey
            && userVoted.isNone then
          some r.choice
        else none
  else none

/-! ## Helper lemmas for the feed trace -/

lemma hasSetVotes_append (l1 l2 : List BAction) :
    hasSetVotes (l1 ++ l2) = (hasSetVotes l1 || hasSetVotes l2) := by
  induction l1 with
  | nil => simp [hasSetVotes]
  | cons a l ih => cases a <;> simp [hasSetVotes, ih]

lemma feedRun_locked (cbs : List FeedCb) (fs : FeedState)
    (h : fs.isLocked = true) :
    (feedRun fs cbs).1.isLocked = true ∧
    hasSetVotes (feedRun fs cbs).2 = false := by
  induction cbs generalizing fs with
  | nil => simpa [feedRun, hasSetVotes]
  | cons cb rest ih =>
      cases cb with
      | tick a b =>
          simp only [feedRun, feedStep, h, if_true, hasSetVotes_append]
          have := ih { fs with isLocked := true, autoVoteInterval := none } rfl
          simpa [hasSetVotes] using this
      | processVote c =>
          simp only [feedRun, feedStep, h, if_true, hasSetVotes_append]
          have := ih fs h
          simpa [hasSetVotes] using this
      | lockFire =>
          simp only [feedRun, feedStep, hasSetVotes_append]
          have := ih { fs with isLocked := true, autoVoteInterval := none,
                               userVoteTimeout := none } rfl
          simpa [hasSetVotes] using this

/-! ## The claims -/

/-- C1: for every session state with `votingLocked = true` and every vote
payload, the `SET_VOTES` transition returns the state completely unchanged
(and, being a total function, does not throw); hence for every sequence of
`SET_VOTES` dispatches after `LOCK_VOTING`, the stored votes and totalVotes
are identical to their values at lock time. -/
theorem claim_C1 (s : BattleState) :
    (∀ p : Votes, s.votingLocked = true → battleReducer s (.setVotes p) = s) ∧
    (∀ ps : List Votes,
      applySetVotes (battleReducer s .lockVoting) ps
        = battleReducer s .lockVoting) := by
  refine ⟨fun p h => locked_setVotes s h p, fun ps => ?_⟩
  exact locked_applySetVotes _ (lock_sets_locked s) ps

/-- witness for C1 at a concrete locked state and a concrete payload
sequence. -/
theorem claim_C1_witness :
    battleReducer { initialState with votingLocked := true }
        (.setVotes { pokemon1 := 7, pokemon2 := 9 })
      = { initialState with votingLocked := true } ∧
    applySetVotes
        (battleReducer { initialState with votingLocked := true } .lockVoting)
        [{ pokemon1 := 1, pokemon2 := 2 }, { pokemon1 := 3, pokemon2 := 4 }]
      = battleReducer { initialState with votingLocked := true } .lockVoting :=
  ⟨(claim_C1 { initialState with votingLocked := true }).1
      { pokemon1 := 7, pokemon2 := 9 } rfl,
   (claim_C1 { initialState with votingLocked := true }).2
      [{ pokemon1 := 1, pokemon2 := 2 }, { pokemon1 := 3, pokemon2 := 4 }]⟩

/-- C2: after any action applied to any state reachable from
`initialState`, the stored `totalVotes` equals
`votes.pokemon1 + votes.pokemon2` (the reducer recomputes it from the new
payload on every vote update instead of incrementing it independently). -/
theorem claim_C2 (s : BattleState) (h : Reachable s) (a : BAction) :
    (battleReducer s a).totalVotes
      = (battleReducer s a).votes.pokemon1 + (battleReducer s a).votes.pokemon2 :=
  totalInv_preserved s a (totalInv_reachable h)

/-- witness for C2: a vote update dispatched to the initial state. -/
theorem claim_C2_witness :
    (battleReducer initialState
        (.setVotes { pokemon1 := 2, pokemon2 := 3 })).totalVotes
      = (battleReducer initialState
          (.setVotes { pokemon1 := 2, pokemon2 := 3 })).votes.pokemon1
        + (battleReducer initialState
            (.setVotes { pokemon1 := 2, pokemon2 := 3 })).votes.pokemon2 :=
  claim_C2 initialState Reachable.init (.setVotes { pokemon1 := 2, pokemon2 := 3 })

/-- C3 counterexample: the claim says `SET_USER_VOTED` is a silent no-op at
the store boundary once `userVoted` is set; but in a state with
`userVoted = some pokemon1`, dispatching `SET_USER_VOTED(pokemon2)` records
`pokemon2` — the reducer overwrites the choice unconditionally. -/
theorem claim_C3_counterexample :
    ({ initialState with userVoted := some .pokemon1 } : BattleState).userVoted
      = some Choice.pokemon1 ∧
    (battleReducer { initialState with userVoted := some .pokemon1 }
        (.setUserVoted (some .pokemon2))).userVoted = some Choice.pokemon2 ∧
    some Choice.pokemon2 ≠ some Choice.pokemon1 := by
  refine ⟨rfl, rfl, by decide⟩

/-- C3 amended: the reducer's `SET_USER_VOTED` overwrites `userVoted`
unconditionally (last write wins — this is what lets `loadPokemon` reset it
to null); the double-voting guard lives in the controller instead:
`handleVote` dispatches nothing at all when `userVoted` is already set. -/
theorem claim_C3 (s : BattleState) (p : Option Choice) (c : Choice)
    (wsa fails sc : Bool) :
    battleReducer s (.setUserVoted p) = { s with userVoted := p } ∧
    (s.userVoted.isSome = true →
      (handleVote s.userVoted wsa fails c sc).dispatched = []) := by
  refine ⟨rfl, fun h => ?_⟩
  simp [handleVote, h]

/-- witness for C3 at a state that has already recorded a vote. -/
theorem claim_C3_witness :
    (handleVote (some Choice.pokemon1) true false Choice.pokemon2 false).dispatched
      = [] :=
  (claim_C3 { initialState with userVoted := some .pokemon1 } none
      Choice.pokemon2 true false false).2 rfl

/-- C10: the reducer is a total function (defined for every state and
action), and any action whose `type` string is not one of the handled event
types returns the state exactly unchanged via the `default` case. -/
theorem claim_C10 (s : BattleState) (a : BAction)
    (h : a.actionType ∉ handledActionTypes) : battleReducer s a = s := by
  cases a <;> first
    | rfl
    | (simp only [BAction.actionType] at h; exact absurd (by decide) h)

/-- witness for C10: an action with an unrecognized `type` string leaves the
initial state unchanged. -/
theorem claim_C10_witness :
    battleReducer initialState (.other "BOGUS_ACTION") = initialState :=
  claim_C10 initialState (.other "BOGUS_ACTION") (by decide)

/-- C4: the lock-timeout callback sets the `isLocked` latch, cancels the
interval and only then dispatches `LOCK_VOTING`, and every interval / vote
processing callback checks the latch synchronously before emitting; hence
for every feed state and every sequence of timer callbacks, the dispatched
trace never contains a `SET_VOTES` after a `LOCK_VOTING`. -/
theorem claim_C4 (fs : FeedState) (cbs : List FeedCb) :
    lockClean (feedRun fs cbs).2 = true := by
  induction cbs generalizing fs with
  | nil => rfl
  | cons cb rest ih =>
      cases cb with
      | tick a b =>
          cases h : fs.isLocked with
          | true =>
              simp only [feedRun, feedStep, h, if_true]
              simpa [lockClean] using ih { fs with isLocked := true,
                                                   autoVoteInterval := none }
          | false =>
              simp only [feedRun, feedStep, h]
              simpa [lockClean] using
                ih { fs with isLocked := false,
                             currentVotes :=
                        { pokemon1 := fs.currentVotes.pokemon1 + a,
                          pokemon2 := fs.currentVotes.pokemon2 + b } }
      | processVote c =>
          cases h : fs.isLocked with
          | true =>
              simp only [feedRun, feedStep, h, if_true]
              simpa [lockClean] using ih fs
          | false =>
              simp only [feedRun, feedStep, h]
              simpa [lockClean] using
                ih { fs with isLocked := false,
                             currentVotes := addChoice fs.currentVotes c,
                             userVoteTimeout := some fs.nextTimerId,
                             nextTimerId := fs.nextTimerId + 1 }
      | lockFire =>
          simp only [feedRun, feedStep]
          have hlocked := feedRun_locked rest
            { fs with isLocked := true, autoVoteInterval := none,
                      userVoteTimeout := none } rfl
          simpa [lockClean] using hlocked.2

/-- C5 counterexample: the delay from the vote to the countdown-driven lock
attempt (600 ms lead-in plus five 1000 ms ticks = 5600 ms) is NOT less than
or equal to the delay to the feed's own lock dispatch (500 ms processing
plus 5000 ms timeout = 5500 ms). -/
theorem claim_C5_counterexample :
    ¬ countdownLockDelayMs ≤ feedLockDelayMs := by decide

/-- C5 amended: the feed's internal lock fires strictly before the
countdown-driven lock attempt — 5500 ms versus 5600 ms after the vote, a
100 ms gap (the two share the 5-second main duration but disagree on the
lead-in, 500 ms versus 600 ms); moreover the mock returned by
`createMockWebSocket` exposes no `lockVoting` method at all, so the
countdown's guarded `ws.lockVoting()` call is skipped and the feed timer is
the only lock source. -/
theorem claim_C5 :
    feedLockDelayMs < countdownLockDelayMs ∧
    countdownLockDelayMs = feedLockDelayMs + 100 ∧
    "lockVoting" ∉ mockWebSocketMethods := by decide

/-- C6 counterexample: arm the feed, process a user vote (scheduling lock
timeout 1), then re-arm via `startAutoVoting`: the pending user-vote lock
timeout survives the re-arm, and firing it afterwards still dispatches
`LOCK_VOTING` to the store — so re-arming does NOT cancel every prior
timer. -/
theorem claim_C6_counterexample :
    ((feedStep (sendSync (startAutoVoting initialFeedState).1)
        (.processVote .pokemon1)).1).userVoteTimeout = some 1 ∧
    ((startAutoVoting (feedStep (sendSync (startAutoVoting initialFeedState).1)
        (.processVote .pokemon1)).1).1).userVoteTimeout = some 1 ∧
    (feedStep (startAutoVoting (feedStep (sendSync
        (startAutoVoting initialFeedState).1)
        (.processVote .pokemon1)).1).1 .lockFire).2 = [.lockVoting] := by
  decide

/-- C6 amended: `startAutoVoting` cancels only the prior auto-vote interval
(a previously scheduled interval is never the one armed afterwards); a
pending user-vote lock timeout is left untouched by the re-arm, and only
`close()` cancels both timers. -/
theorem claim_C6 (fs : FeedState) :
    (startAutoVoting fs).1.userVoteTimeout = fs.userVoteTimeout ∧
    (∀ id, fs.autoVoteInterval = some id → id < fs.nextTimerId →
        (startAutoVoting fs).1.autoVoteInterval ≠ some id) ∧
    (closeFeed fs).autoVoteInterval = none ∧
    (closeFeed fs).userVoteTimeout = none := by
  refine ⟨rfl, fun id _ hlt heq => ?_, rfl, rfl⟩
  simp only [startAutoVoting, Option.some.injEq] at heq
  omega

/-- witness for C6 at a feed whose interval 0 is armed: the re-armed
interval is a different timer. -/
theorem claim_C6_witness :
    (startAutoVoting { initialFeedState with autoVoteInterval := some 0,
                                             nextTimerId := 1 }).1.autoVoteInterval
      ≠ some 0 :=
  (claim_C6 { initialFeedState with autoVoteInterval := some 0,
                                    nextTimerId := 1 }).2.1 0 rfl (by decide)

/-- C7 counterexample: for the pair charizard/mewtwo, the stored record's
battle id equals the current session's battle id and this tab has not
voted, yet no choice is adopted — the claimed if-and-only-if on session-id
equality fails because the code instead tests both ids against the fixed
substring `'bulbasaur_vs_pikachu'`, so detection works for no other entity
pair. -/
theorem claim_C7_counterexample :
    deriveBattleId "charizard" "mewtwo" = "charizard_vs_mewtwo" ∧
    checkExistingVote
        (some { choice := .pokemon1,
                battleId := deriveBattleId "charizard" "mewtwo" })
        (deriveBattleId "charizard" "mewtwo") false = none := by
  decide

/-- C7 amended: adoption is keyed on the fixed substring, not on session-id
equality: when both the stored and the current battle id contain
`'bulbasaur_vs_pikachu'` and this tab has not voted, the stored choice is
adopted (even for unequal ids); when the current id lacks the substring
nothing is adopted (even for equal ids); a tab that has itself voted never
adopts; and the storage-change path agrees with the load path on the
well-known key. -/
theorem claim_C7 (r : VoteRecord) (cur : String) :
    (strIncludes r.battleId fixedBattleKey = true →
      strIncludes cur fixedBattleKey = true →
        checkExistingVote (some r) cur false = some r.choice) ∧
    (strIncludes cur fixedBattleKey = false →
      ∀ tv, checkExistingVote (some r) cur tv = none) ∧
    checkExistingVote (some r) cur true = none ∧
    handleStorageChange "pokemon_battle_vote" (some r) false cur none
      = checkExistingVote (some r) cur false := by
  refine ⟨fun h1 h2 => ?_, fun h tv => ?_, ?_, ?_⟩
  · simp [checkExistingVote, h1, h2]
  · simp [checkExistingVote, h]
  · simp [checkExistingVote]
  · simp [handleStorageChange, checkExistingVote]

/-- witness for C7: a stored id different from the current one, both
containing the fixed substring, is adopted. -/
theorem claim_C7_witness :
    checkExistingVote
        (some { choice := Choice.pokemon2,
                battleId := "xbulbasaur_vs_pikachu" })
        (deriveBattleId "bulbasaur" "pikachu") false
      = some Choice.pokemon2 :=
  (claim_C7 { choice := Choice.pokemon2, battleId := "xbulbasaur_vs_pikachu" }
      (deriveBattleId "bulbasaur" "pikachu")).1 (by decide) (by decide)

/-- C8 counterexample: when `ws.send` throws, the catch block only reverts
`userVoted` and hides the banner — the 600 ms countdown timer scheduled
before the `try` is never cancelled (`handleVote` keeps no handle to it),
so the countdown still runs after the failure. -/
theorem claim_C8_counterexample :
    (handleVote none true true Choice.pokemon1 false).countdownScheduled = true ∧
    (handleVote none true true Choice.pokemon1 false).countdownCancelled = false := by
  decide

/-- C8 amended: on transport failure `handleVote` dispatches the vote and
then its reversal, so the store state after the two dispatches equals the
pre-vote state, and the countdown banner flag is false when `handleVote`
returns; but the countdown timer it scheduled is still pending
(scheduled and not cancelled), so the countdown is not aborted. -/
theorem claim_C8 (s : BattleState) (c : Choice) (sc : Bool)
    (h : s.userVoted = none) :
    applyActions s (handleVote s.userVoted true true c sc).dispatched = s ∧
    (handleVote s.userVoted true true c sc).showCountdown = false ∧
    (handleVote s.userVoted true true c sc).countdownScheduled = true ∧
    (handleVote s.userVoted true true c sc).countdownCancelled = false := by
  obtain ⟨p1, p2, l, e, v, uv, cs, tv, vl, bd, bid⟩ := s
  simp only at h
  subst h
  simp [handleVote, applyActions, battleReducer]

/-- witness for C8 at the initial (not-yet-voted) state. -/
theorem claim_C8_witness :
    applyActions initialState
        (handleVote initialState.userVoted true true Choice.pokemon1 false).dispatched
      = initialState ∧
    (handleVote initialState.userVoted true true Choice.pokemon1 false).showCountdown
      = false ∧
    (handleVote initialState.userVoted true true Choice.pokemon1 false).countdownScheduled
      = true ∧
    (handleVote initialState.userVoted true true Choice.pokemon1 false).countdownCancelled
      = false :=
  claim_C8 initialState Choice.pokemon1 false rfl

/-- C9: `getWinnerInfo` is total and, whenever `totalVotes` is nonzero,
returns the side with strictly more votes, or the first-class tie result at
exactly equal counts; at `totalVotes = 0` it returns `null` rather than a
tie. -/
theorem claim_C9 (s : BattleState) :
    (s.totalVotes ≠ 0 →
      (s.votes.pokemon1 = s.votes.pokemon2 →
        getWinnerInfo s = some { winner := .tie, name := "Tie" }) ∧
      (s.votes.pokemon1 > s.votes.pokemon2 →
        (getWinnerInfo s).map WinnerInfo.winner = some .pokemon1) ∧
      (s.votes.pokemon2 > s.votes.pokemon1 →
        (getWinnerInfo s).map WinnerInfo.winner = some .pokemon2)) ∧
    (s.totalVotes = 0 → getWinnerInfo s = none) := by
  refine ⟨fun h => ⟨fun he => ?_, fun hgt => ?_, fun hlt => ?_⟩, fun h => ?_⟩
  · simp [getWinnerInfo, h, he]
  · have hne : ¬ s.votes.pokemon1 = s.votes.pokemon2 := by omega
    simp [getWinnerInfo, h, hne, hgt]
  · have hne : ¬ s.votes.pokemon1 = s.votes.pokemon2 := by omega
    have hngt : ¬ s.votes.pokemon1 > s.votes.pokemon2 := by omega
    simp [getWinnerInfo, h, hne, hngt]
  · simp [getWinnerInfo, h]

/-- witness for C9: votes {3,2} yield winner pokemon1, votes {5,5} yield the
tie result, and the zero-vote state yields no winner. -/
theorem claim_C9_witness :
    (getWinnerInfo { initialState with
        votes := { pokemon1 := 3, pokemon2 := 2 }, totalVotes := 5 }).map
        WinnerInfo.winner = some WinnerTag.pokemon1 ∧
    getWinnerInfo { initialState with
        votes := { pokemon1 := 5, pokemon2 := 5 }, totalVotes := 10 }
      = some { winner := .tie, name := "Tie" } ∧
    getWinnerInfo initialState = none :=
  ⟨((claim_C9 { initialState with
        votes := { pokemon1 := 3, pokemon2 := 2 }, totalVotes := 5 }).1
      (by decide)).2.1 (by decide),
   ((claim_C9 { initialState with
        votes := { pokemon1 := 5, pokemon2 := 5 }, totalVotes := 10 }).1
      (by decide)).1 rfl,
   (claim_C9 initialState).2 rfl⟩

end PokemonBattle
